import Mathlib

/-!
Verification of `c10::SymInt` (src/c10/core/SymInt.cpp): a dual-representation
integer that is either a concrete 64-bit integer or an owning reference to an
external, reference-counted symbolic node (`SymIntNodeImpl`).

Embedding notes.
* The header `c10/core/SymInt.h` is not part of the sources; following the
  spec's data model (§3, §9) the tagged 64-bit word is modelled as a closed
  variant type: `Concrete` holds the integer payload, `Symbolic` holds the
  node reference.  Node objects are identified by allocation index (`Nat`).
* Machine `int64_t` arithmetic is modelled on `Int` with explicit reduction
  into `[-2^63, 2^63)` (two's-complement wraparound).  C++ `/` and `%` on
  `int64_t` truncate toward zero, which is `Int.tdiv` / `Int.tmod`.
* The reference-counted heap of nodes is an explicit `Store` threaded through
  every operation.  `intrusive_ptr` effects are made explicit at the point the
  C++ object model performs them: `reclaim_copy` and copy-construction
  increment a refcount, scope exit of a handle decrements it, `release()`
  transfers ownership without touching the count.
* Node operations that build new nodes (`wrap`, `add`, ..., `ge`) are modelled
  from the spec (§6) as allocations that record their provenance in the store;
  node operations that produce primitive results (`bool_`, `guard_int`) are an
  abstract parameter `NodeOps`, since any conforming node implementation may
  be substituted.
-/

namespace C10

/-- Word width constants for `int64_t` two's-complement arithmetic. -/
def i64Half : Int := 9223372036854775808

def i64Size : Int := 18446744073709551616

/-- Reduce an unbounded integer into the `int64_t` range `[-2^63, 2^63)`,
i.e. two's-complement wraparound, written with `Int.emod` so the result is
canonical. -/
def i64norm (x : Int) : Int := (x + i64Half).emod i64Size - i64Half

/-- `int64_t` addition (wraps on overflow). -/
def i64add (a b : Int) : Int := i64norm (a + b)

/-- `int64_t` subtraction (wraps on overflow). -/
def i64sub (a b : Int) : Int := i64norm (a - b)

/-- `int64_t` multiplication (wraps on overflow). -/
def i64mul (a b : Int) : Int := i64norm (a * b)

/-- `int64_t` division: C++ `/` truncates toward zero (`Int.tdiv`); the sole
overflow `INT64_MIN / -1` is reduced like the other operators. -/
def i64div (a b : Int) : Int := i64norm (Int.tdiv a b)

/-- `int64_t` remainder: C++ `%` takes the sign of the dividend
(`Int.tmod`). -/
def i64mod (a b : Int) : Int := i64norm (Int.tmod a b)

/-- Modelled from the spec: the tagged-word value type of `c10/core/SymInt.h`
(the header is not among the sources).  Spec §3/§9: a closed variant type,
either a concrete sign-extended integer payload or an ownership-carrying
reference to an externally allocated node; the bit-packed encoding is an
optimization layer underneath this interface. -/
inductive SymInt where
  | concrete (payload : Int)
  | symbolic (node : Nat)
deriving DecidableEq, Repr

namespace SymInt

/-- Modelled from the spec (§4.1): `is_symbolic` tests the reserved tag bit,
i.e. discriminates the two variants. -/
def is_symbolic : SymInt → Bool
  | .concrete _ => false
  | .symbolic _ => true

/-- Modelled from the spec (§4.1): `as_int_unchecked` returns the payload
bits sign-extended; it is only valid on a concrete value (callers check), so
the symbolic branch returns an unspecified junk value. -/
def as_int_unchecked : SymInt → Int
  | .concrete payload => payload
  | .symbolic _ => 0

/-- Modelled from the spec: the `SymInt(int64_t)` constructor stores the
concrete integer directly. -/
def ofInt (d : Int) : SymInt := .concrete d

end SymInt

/-- Provenance of a node in the modelled heap: either pre-existing (created
by the external collaborator before entering this core), created by the
`wrap` factory of an exemplar node, or the result of a binary node
operation. -/
inductive NodeDesc where
  | external (tag : Nat)
  | wrapped (exemplar : Nat) (payload : Int)
  | binop (name : String) (lhs rhs : Nat)
deriving DecidableEq, Repr

/-- The modelled heap of symbolic nodes: a refcount and a description per
allocation index, plus the next fresh index. -/
structure Store where
  refcnt : Nat → Nat
  nodes : Nat → Option NodeDesc
  nextId : Nat

/-- Increment the refcount of node `n` (an `intrusive_ptr` copy or
`reclaim_copy`). -/
def incref (n : Nat) (st : Store) : Store :=
  { st with refcnt := fun j => if j = n then st.refcnt j + 1 else st.refcnt j }

/-- Decrement the refcount of node `n` (an `intrusive_ptr` handle going out
of scope). -/
def decref (n : Nat) (st : Store) : Store :=
  { st with refcnt := fun j => if j = n then st.refcnt j - 1 else st.refcnt j }

/-- Allocate a fresh node with refcount 1 and the given provenance,
returning the new handle. -/
def allocNode (d : NodeDesc) (st : Store) : Nat × Store :=
  (st.nextId,
   { refcnt := fun j => if j = st.nextId then 1 else st.refcnt j
     nodes := fun j => if j = st.nextId then some d else st.nodes j
     nextId := st.nextId + 1 })

/-- Modelled from the spec (§6): `node->wrap(i)` is the factory building a
constant node of the exemplar's family; it produces a new owned node
handle. -/
def wrap (exemplar : Nat) (payload : Int) (st : Store) : Nat × Store :=
  allocNode (.wrapped exemplar payload) st

/-- Modelled from the spec (§6): the primitive-result node operations of the
external collaborator.  `bool_` forces a boolean-valued node to a concrete
boolean; `guardInt` materializes a node to a concrete integer given the
diagnostic context, and may fail. -/
structure NodeOps where
  bool_ : Nat → Store → Bool
  guardInt : Nat → String → Int → Except String Int

namespace SymInt

/-- `SymInt::toSymIntNodeImpl` (SymInt.cpp lines 28-31):
`TORCH_CHECK(is_symbolic())`, then `SymIntNode::reclaim_copy(...)` — a new
owned handle sharing ownership with the referent, refcount incremented by
one.  `TORCH_CHECK` failure is the error outcome. -/
def toSymIntNodeImpl (v : SymInt) (st : Store) : Except String (Nat × Store) :=
  match v with
  | .concrete _ => .error "TORCH_CHECK(is_symbolic()) failed"
  | .symbolic n => .ok (n, incref n st)

/-- `SymInt::toSymInt(SymIntNode)` (SymInt.cpp lines 33-38): consumes the
handle (`release()` transfers its one unit of ownership, no refcount
change) and encodes the node's identity with the tag set — in the variant
model, builds `SymInt.symbolic`. -/
def toSymInt (sin_sp : Nat) : SymInt := .symbolic sin_sp

end SymInt

/-- Result of `normalize_symints`: the two returned node handles, the final
values of its by-value parameters `a_` and `b_` at return (recording
whether the code wrote a promoted value back into those slots), and the
store. -/
structure NormResult where
  ha : Nat
  hb : Nat
  fa : SymInt
  fb : SymInt
  st : Store

/-- `normalize_symints` (SymInt.cpp lines 8-26).  Parameters are taken by
value.  Each symbolic operand is resolved via `toSymIntNodeImpl`
(refcount +1); `common` is `a` if resolved else `b` (dereferencing a null
`b` is the out-of-contract case, modelled by defaulting to 0); each still
concrete operand is wrapped by `common`.  The statement `a_.toSymInt(a)`
copies handle `a` into the by-value parameter of the static `toSymInt`
(refcount +1), which `release()`s it into a `SymInt` temporary that is
immediately discarded — the local `a_` is never assigned. -/
def normalize_symints (a_ b_ : SymInt) (st0 : Store) : NormResult :=
  let ra : Option Nat × Store :=
    match a_ with
    | .symbolic n => (some n, incref n st0)
    | .concrete _ => (none, st0)
  let rb : Option Nat × Store :=
    match b_ with
    | .symbolic n => (some n, incref n ra.2)
    | .concrete _ => (none, ra.2)
  let common : Nat :=
    match ra.1 with
    | some n => n
    | none => (rb.1).getD 0
  let sa : Nat × SymInt × Store :=
    match ra.1 with
    | some n => (n, a_, rb.2)
    | none =>
        let w := wrap common a_.as_int_unchecked rb.2
        let stDiscard := incref w.1 w.2
        (w.1, a_, stDiscard)
  let sb : Nat × SymInt × Store :=
    match rb.1 with
    | some n => (n, b_, sa.2.2)
    | none =>
        let w := wrap common b_.as_int_unchecked sa.2.2
        let stDiscard := incref w.1 w.2
        (w.1, b_, stDiscard)
  { ha := sa.1, hb := sb.1, fa := sa.2.1, fb := sb.2.1, st := sb.2.2 }

namespace SymInt

/-- `SymInt::guard_int(const char*, int64_t)` (SymInt.cpp lines 55-61): the
concrete fast path returns `data_`; otherwise an owned handle is taken
(`toSymIntNodeImpl`, refcount +1), the node's `guard_int` is invoked with
the diagnostic context, and the handle is destroyed at scope exit
(refcount -1), also on the unwinding path. -/
def guard_int (ops : NodeOps) (v : SymInt) (file : String) (line : Int)
    (st : Store) : Except String Int × Store :=
  match v with
  | .concrete d => (.ok d, st)
  | .symbolic _ =>
    match v.toSymIntNodeImpl st with
    | .error e => (.error e, st)
    | .ok (a, st1) => (ops.guardInt a file line, decref a st1)

/-- The shared symbolic tail of the five arithmetic operators: normalize,
invoke the named binary node operation (allocating the result node), commit
the result handle into a tagged value via `toSymInt`, and destroy the two
handles of the returned `std::array` at scope exit. -/
def arithSlowPath (name : String) (self sci : SymInt) (st : Store) :
    SymInt × Store :=
  let r := normalize_symints self sci st
  let w := allocNode (.binop name r.ha r.hb) r.st
  (SymInt.toSymInt w.1, decref r.hb (decref r.ha w.2))

/-- The shared symbolic tail of the comparison operators: normalize, invoke
the named comparison node operation (allocating a boolean-valued node),
force it with `bool_`, and destroy the temporary and the two array handles
at scope exit. -/
def cmpSlowPath (ops : NodeOps) (name : String) (self sci : SymInt)
    (st : Store) : Bool × Store :=
  let r := normalize_symints self sci st
  let w := allocNode (.binop name r.ha r.hb) r.st
  let b := ops.bool_ w.1 w.2
  (b, decref r.hb (decref r.ha (decref w.1 w.2)))

/-- `SymInt::operator+` (SymInt.cpp lines 63-69). -/
def add (self sci : SymInt) (st : Store) : SymInt × Store :=
  match self, sci with
  | .concrete a, .concrete b => (.concrete (i64add a b), st)
  | _, _ => arithSlowPath "add" self sci st

/-- `SymInt::operator-` (SymInt.cpp lines 71-77). -/
def sub (self sci : SymInt) (st : Store) : SymInt × Store :=
  match self, sci with
  | .concrete a, .concrete b => (.concrete (i64sub a b), st)
  | _, _ => arithSlowPath "sub" self sci st

/-- `SymInt::operator*` (SymInt.cpp lines 79-85). -/
def mul (self sci : SymInt) (st : Store) : SymInt × Store :=
  match self, sci with
  | .concrete a, .concrete b => (.concrete (i64mul a b), st)
  | _, _ => arithSlowPath "mul" self sci st

/-- `SymInt::operator/` (SymInt.cpp lines 87-93): the concrete fast path is
native C++ `int64_t` division (truncating); the symbolic path dispatches to
the node's `floordiv`. -/
def div (self sci : SymInt) (st : Store) : SymInt × Store :=
  match self, sci with
  | .concrete a, .concrete b => (.concrete (i64div a b), st)
  | _, _ => arithSlowPath "floordiv" self sci st

/-- `SymInt::operator%` (SymInt.cpp lines 95-101): the concrete fast path is
native C++ `int64_t` remainder (truncating convention); the symbolic path
dispatches to the node's `mod`. -/
def mod (self sci : SymInt) (st : Store) : SymInt × Store :=
  match self, sci with
  | .concrete a, .concrete b => (.concrete (i64mod a b), st)
  | _, _ => arithSlowPath "mod" self sci st

/-- `SymInt::operator==` (SymInt.cpp lines 103-109). -/
def eq (ops : NodeOps) (self sci : SymInt) (st : Store) : Bool × Store :=
  match self, sci with
  | .concrete a, .concrete b => (decide (a = b), st)
  | _, _ => cmpSlowPath ops "eq" self sci st

/-- `SymInt::operator!=` (SymInt.cpp lines 111-113): defined as
`!(*this == sci)`. -/
def ne (ops : NodeOps) (self sci : SymInt) (st : Store) : Bool × Store :=
  let r := eq ops self sci st
  (!r.1, r.2)

/-- `SymInt::operator<` (SymInt.cpp lines 115-121). -/
def lt (ops : NodeOps) (self sci : SymInt) (st : Store) : Bool × Store :=
  match self, sci with
  | .concrete a, .concrete b => (decide (a < b), st)
  | _, _ => cmpSlowPath ops "lt" self sci st

/-- `SymInt::operator<=` (SymInt.cpp lines 123-129). -/
def le (ops : NodeOps) (self sci : SymInt) (st : Store) : Bool × Store :=
  match self, sci with
  | .concrete a, .concrete b => (decide (a ≤ b), st)
  | _, _ => cmpSlowPath ops "le" self sci st

/-- `SymInt::operator>` (SymInt.cpp lines 131-137). -/
def gt (ops : NodeOps) (self sci : SymInt) (st : Store) : Bool × Store :=
  match self, sci with
  | .concrete a, .concrete b => (decide (b < a), st)
  | _, _ => cmpSlowPath ops "gt" self sci st

/-- `SymInt::operator>=` (SymInt.cpp lines 139-145). -/
def ge (ops : NodeOps) (self sci : SymInt) (st : Store) : Bool × Store :=
  match self, sci with
  | .concrete a, .concrete b => (decide (b ≤ a), st)
  | _, _ => cmpSlowPath ops "ge" self sci st

/-- `SymInt::operator*=` (SymInt.cpp lines 147-149): replaces the receiver
with `*this * sci`; the updated receiver is the first component. -/
def mulAssign (self sci : SymInt) (st : Store) : SymInt × Store :=
  mul self sci st

/-- `SymInt::operator<(int64_t)` (SymInt.cpp lines 151-153). -/
def ltInt (ops : NodeOps) (self : SymInt) (sci : Int) (st : Store) :
    Bool × Store :=
  lt ops self (SymInt.ofInt sci) st

/-- `SymInt::operator<=(int64_t)` (SymInt.cpp lines 155-157). -/
def leInt (ops : NodeOps) (self : SymInt) (sci : Int) (st : Store) :
    Bool × Store :=
  le ops self (SymInt.ofInt sci) st

/-- `SymInt::operator>(int64_t)` (SymInt.cpp lines 159-161). -/
def gtInt (ops : NodeOps) (self : SymInt) (sci : Int) (st : Store) :
    Bool × Store :=
  gt ops self (SymInt.ofInt sci) st

/-- `SymInt::operator>=(int64_t)` (SymInt.cpp lines 163-165). -/
def geInt (ops : NodeOps) (self : SymInt) (sci : Int) (st : Store) :
    Bool × Store :=
  ge ops self (SymInt.ofInt sci) st

/-- `SymInt::operator==(int64_t)` (SymInt.cpp lines 167-169). -/
def eqInt (ops : NodeOps) (self : SymInt) (sci : Int) (st : Store) :
    Bool × Store :=
  eq ops self (SymInt.ofInt sci) st

/-- `SymInt::operator!=(int64_t)` (SymInt.cpp lines 171-173). -/
def neInt (ops : NodeOps) (self : SymInt) (sci : Int) (st : Store) :
    Bool × Store :=
  ne ops self (SymInt.ofInt sci) st

/-- `SymInt::operator*(int64_t)` (SymInt.cpp lines 175-177). -/
def mulInt (self : SymInt) (sci : Int) (st : Store) : SymInt × Store :=
  mul self (SymInt.ofInt sci) st

end SymInt

/-- The `C10_MOBILE` build (SymInt.cpp lines 39-53): every bridging entry
point unconditionally fails with a fixed diagnostic. -/
def mobileMessage : String := "SymInts aren't available on mobile"

/-- Mobile stub of `SymInt::toSymInt` (SymInt.cpp lines 44-46):
`TORCH_INTERNAL_ASSERT(false, ...)` for every input. -/
def mobile_toSymInt (sin_sp : Nat) (st : Store) :
    Except String (SymInt × Store) :=
  .error mobileMessage

/-- Mobile stub of `SymInt::toSymIntNodeImpl` (SymInt.cpp lines 47-49). -/
def mobile_toSymIntNodeImpl (v : SymInt) (st : Store) :
    Except String (Nat × Store) :=
  .error mobileMessage

/-- Mobile stub of `normalize_symints` (SymInt.cpp lines 50-52). -/
def mobile_normalize_symints (a_ b_ : SymInt) (st : Store) :
    Except String NormResult :=
  .error mobileMessage

/-- A concrete node-operation implementation used to instantiate witnesses:
`bool_` reports whether the node is an `eq` node of equal operands, and
`guard_int` fails on every node (a maximally unresolved collaborator). -/
def defaultOps : NodeOps where
  bool_ := fun n st =>
    match st.nodes n with
    | some (.binop _ l r) => decide (l = r)
    | _ => false
  guardInt := fun _ file line =>
    .error (file ++ ":" ++ toString line ++ ": unresolved symbolic int")

/-- A small concrete store for witnesses: one live external node (index 0)
with refcount 1. -/
def store1 : Store where
  refcnt := fun j => if j = 0 then 1 else 0
  nodes := fun j => if j = 0 then some (.external 0) else none
  nextId := 1

end C10

namespace C10

/-! ## Claims -/

/-- C1: the spec claims `operator/` and `operator%` use floor semantics on
concrete operands (for `a = -7, b = 2`: quotient `-4`, remainder `1`,
matching the node's `floordiv`/`mod`).  The concrete fast path of the code
uses native truncating `int64_t` division: it yields `-3` and `-1` at that
input, diverging from the floor results `-4` and `1` that the symbolic
`floordiv`/`mod` path is named for. -/
theorem C1_truncating_divergence :
    (SymInt.div (.concrete (-7)) (.concrete 2) store1).1 = .concrete (-3) ∧
    (SymInt.mod (.concrete (-7)) (.concrete 2) store1).1 = .concrete (-1) ∧
    Int.fdiv (-7) 2 = -4 ∧
    Int.fmod (-7) 2 = 1 ∧
    (SymInt.div (.concrete (-7)) (.concrete 2) store1).1 ≠
      .concrete (Int.fdiv (-7) 2) ∧
    (SymInt.mod (.concrete (-7)) (.concrete 2) store1).1 ≠
      .concrete (Int.fmod (-7) 2) := by
  refine ⟨by decide, by decide, by decide, by decide, by decide, by decide⟩

/-- C2 counterexample: the claim says that after a mixed binary operation the
formerly-concrete operand is observably symbolic (promoted in place).  At the
concrete input `a = Concrete 3`, `b = Symbolic 0`: the operation's result is
symbolic, but even `normalize_symints`'s own by-value slot for `a_` still
holds `Concrete 3` at return (the `a_.toSymInt(a)` result is discarded), and
`Concrete 3` is not symbolic. -/
theorem C2_no_inplace_promotion :
    (SymInt.add (.concrete 3) (.symbolic 0) store1).1.is_symbolic = true ∧
    (normalize_symints (.concrete 3) (.symbolic 0) store1).fa =
      .concrete 3 ∧
    (SymInt.concrete 3).is_symbolic = false := by
  refine ⟨by decide, by decide, by decide⟩

/-- C2 (amended): normalization never modifies the operand values: the
parameters are received by value and the `SymInt` produced by
`a_.toSymInt(a)` / `b_.toSymInt(b)` is discarded, so the parameter slots
hold the original values unchanged at return — a formerly-concrete operand
remains concrete; only the two returned node handles are uniformly
symbolic. -/
theorem C2_operands_unchanged (a b : SymInt) (st : Store) :
    (normalize_symints a b st).fa = a ∧ (normalize_symints a b st).fb = b := by
  cases a <;> cases b <;> exact ⟨rfl, rfl⟩

/-- C3: on two concrete operands every operator computes directly on the raw
64-bit integers with two's-complement semantics (`i64norm` of the exact
result; `/` and `%` truncate, stated away from the undefined `b = 0`), the
store is returned unchanged (no node constructed, no normalization), and
the result does not depend on the node-operation implementation `ops`. -/
theorem C3_concrete_fast_path (ops : NodeOps) (a b : Int) (st : Store) :
    SymInt.add (.concrete a) (.concrete b) st =
      (.concrete (i64norm (a + b)), st) ∧
    SymInt.sub (.concrete a) (.concrete b) st =
      (.concrete (i64norm (a - b)), st) ∧
    SymInt.mul (.concrete a) (.concrete b) st =
      (.concrete (i64norm (a * b)), st) ∧
    (b ≠ 0 → SymInt.div (.concrete a) (.concrete b) st =
      (.concrete (i64norm (Int.tdiv a b)), st)) ∧
    (b ≠ 0 → SymInt.mod (.concrete a) (.concrete b) st =
      (.concrete (i64norm (Int.tmod a b)), st)) ∧
    SymInt.eq ops (.concrete a) (.concrete b) st = (decide (a = b), st) ∧
    SymInt.ne ops (.concrete a) (.concrete b) st = (!decide (a = b), st) ∧
    SymInt.lt ops (.concrete a) (.concrete b) st = (decide (a < b), st) ∧
    SymInt.le ops (.concrete a) (.concrete b) st = (decide (a ≤ b), st) ∧
    SymInt.gt ops (.concrete a) (.concrete b) st = (decide (b < a), st) ∧
    SymInt.ge ops (.concrete a) (.concrete b) st = (decide (b ≤ a), st) := by
  exact ⟨rfl, rfl, rfl, fun _ => rfl, fun _ => rfl, rfl, rfl, rfl, rfl, rfl,
    rfl⟩

/-- C3 witness: the fast path evaluated at `a = 7, b = 2` with the default
node implementation, discharging `b ≠ 0`. -/
theorem C3_concrete_fast_path_witness :
    (2 : Int) ≠ 0 ∧
    SymInt.div (.concrete 7) (.concrete 2) store1 =
      (.concrete (i64norm (Int.tdiv 7 2)), store1) ∧
    i64norm (Int.tdiv 7 2) = 3 := by
  obtain ⟨-, -, -, hdiv, -⟩ := C3_concrete_fast_path defaultOps 7 2 store1
  exact ⟨by decide, hdiv (by decide), by decide⟩

/-- C4: `normalize_symints` on at least one symbolic operand: an
already-symbolic operand's handle is its original node; when exactly one
operand is concrete, it is replaced by a freshly allocated node produced by
`wrap` on the common exemplar (the other operand's node) with the concrete
operand's raw payload; when both are symbolic no wrapping occurs and the
node map is untouched. -/
theorem C4_normalize_handles (x : Int) (n m : Nat) (st : Store) :
    ((normalize_symints (.concrete x) (.symbolic n) st).ha = st.nextId ∧
     (normalize_symints (.concrete x) (.symbolic n) st).hb = n ∧
     (normalize_symints (.concrete x) (.symbolic n) st).st.nodes st.nextId =
       some (.wrapped n x)) ∧
    ((normalize_symints (.symbolic n) (.concrete x) st).ha = n ∧
     (normalize_symints (.symbolic n) (.concrete x) st).hb = st.nextId ∧
     (normalize_symints (.symbolic n) (.concrete x) st).st.nodes st.nextId =
       some (.wrapped n x)) ∧
    ((normalize_symints (.symbolic n) (.symbolic m) st).ha = n ∧
     (normalize_symints (.symbolic n) (.symbolic m) st).hb = m ∧
     (normalize_symints (.symbolic n) (.symbolic m) st).st.nodes =
       st.nodes) := by
  refine ⟨⟨rfl, rfl, ?_⟩, ⟨rfl, rfl, ?_⟩, rfl, rfl, rfl⟩ <;>
    simp [normalize_symints, wrap, allocNode, incref, SymInt.as_int_unchecked]

/-- C5: `operator!=` is the logical negation of `operator==` for every pair
of values, every store, and every node implementation: its boolean is the
negation of the equality boolean and its store effect is exactly that of
`operator==` — it never dispatches a node operation of its own. -/
theorem C5_ne_is_negation_of_eq (ops : NodeOps) (a b : SymInt) (st : Store) :
    SymInt.ne ops a b st =
      (!(SymInt.eq ops a b st).1, (SymInt.eq ops a b st).2) := rfl

/-- C6: `guard_int` on a concrete value returns the stored payload with the
store untouched, for every node implementation (so no node operation is
invoked); on a symbolic value it delegates to the node's `guard_int`,
passing the file/line context through. -/
theorem C6_guard_int_concrete (ops : NodeOps) (d : Int) (file : String)
    (line : Int) (st : Store) :
    SymInt.guard_int ops (.concrete d) file line st = (Except.ok d, st) ∧
    ∀ n : Nat, SymInt.guard_int ops (.symbolic n) file line st =
      (ops.guardInt n file line, decref n (incref n st)) :=
  ⟨rfl, fun _ => rfl⟩

/-- C7: `toSymIntNodeImpl` fails the `TORCH_CHECK` on a concrete receiver;
on a symbolic receiver it returns a handle to the same node with that
node's refcount incremented by exactly one (all other counts unchanged),
and the value — being unchanged — is convertible again afterward. -/
theorem C7_toSymIntNodeImpl_contract (d : Int) (n : Nat) (st : Store) :
    SymInt.toSymIntNodeImpl (.concrete d) st =
      .error "TORCH_CHECK(is_symbolic()) failed" ∧
    SymInt.toSymIntNodeImpl (.symbolic n) st = .ok (n, incref n st) ∧
    (incref n st).refcnt n = st.refcnt n + 1 ∧
    (incref n st).refcnt =
      (fun j => if j = n then st.refcnt j + 1 else st.refcnt j) ∧
    SymInt.toSymIntNodeImpl (.symbolic n) (incref n st) =
      .ok (n, incref n (incref n st)) := by
  refine ⟨rfl, rfl, by simp [incref], rfl, rfl⟩

/-- C8: on the mobile build every bridging entry point — `toSymInt`,
`toSymIntNodeImpl`, and `normalize_symints` — fails unconditionally, for
every input, with the one fixed diagnostic message. -/
theorem C8_mobile_stubs_fail (h : Nat) (v a b : SymInt) (st : Store) :
    mobile_toSymInt h st = .error mobileMessage ∧
    mobile_toSymIntNodeImpl v st = .error mobileMessage ∧
    mobile_normalize_symints a b st = .error mobileMessage ∧
    mobileMessage = "SymInts aren't available on mobile" :=
  ⟨rfl, rfl, rfl, rfl⟩

/-- C9: each `int64_t` convenience overload equals the two-value operator
applied to the receiver and a concrete `SymInt` built from the integer, for
every receiver, integer, store, and node implementation. -/
theorem C9_int_overloads_dispatch (ops : NodeOps) (v : SymInt) (i : Int)
    (st : Store) :
    SymInt.eqInt ops v i st = SymInt.eq ops v (.concrete i) st ∧
    SymInt.neInt ops v i st = SymInt.ne ops v (.concrete i) st ∧
    SymInt.ltInt ops v i st = SymInt.lt ops v (.concrete i) st ∧
    SymInt.leInt ops v i st = SymInt.le ops v (.concrete i) st ∧
    SymInt.gtInt ops v i st = SymInt.gt ops v (.concrete i) st ∧
    SymInt.geInt ops v i st = SymInt.ge ops v (.concrete i) st ∧
    SymInt.mulInt v i st = SymInt.mul v (.concrete i) st :=
  ⟨rfl, rfl, rfl, rfl, rfl, rfl, rfl⟩

/-- C10: `guard_int` leaves the store exactly as it found it for every
receiver: the concrete path does not touch it, and on the symbolic path the
owned handle is temporary — the `reclaim_copy` increment and the
scope-exit decrement cancel, for every node implementation. -/
theorem C10_guard_int_frame (ops : NodeOps) (v : SymInt) (file : String)
    (line : Int) (st : Store) :
    (SymInt.guard_int ops v file line st).2 = st := by
  cases v with
  | concrete d => rfl
  | symbolic n =>
      show decref n (incref n st) = st
      cases st with
      | mk refcnt nodes nextId =>
          simp only [decref, incref, Store.mk.injEq, and_true]
          funext j
          by_cases hj : j = n <;> simp [hj]

end C10
